import Mathlib

/-!
Shallow embedding of the stock-dashboard client (`src/app.js`) and proofs
about its watchlist, fetch and chart-composition logic.

Prices travel through the code as opaque numeric values; they are modelled
by a type parameter `α` since the code never computes with them in the
fragments verified here. DOM and network effects are modelled as explicit
state passing and effect logs; each asynchronous fetch is modelled by an
outcome parameter enumerating the ways the awaited call can end.
-/

namespace StockDashboard

/-- A chart dataset as assembled by `drawChart` (`src/app.js:210-241`).
`data` entries are `Option α`: `none` is the JS `null`/`undefined`
"no value" placeholder. `borderDash` is `none` when the dataset has no
`borderDash` property. -/
structure DatasetSpec (α : Type) where
  label : String
  data : List (Option α)
  borderDash : Option (List Nat)
  deriving Repr, DecidableEq

/-- The chart object handed to the charting library by `drawChart`
(`src/app.js:243-267`): label axis, datasets and title. -/
structure ChartData (α : Type) where
  labels : List String
  datasets : List (DatasetSpec α)
  title : String
  deriving Repr, DecidableEq

/-- JS truthiness of the `splitIndex` argument at `src/app.js:212`:
`null` (modelled `none`) and `0` are falsy, every other number is truthy. -/
def splitTruthy : Option Nat → Bool
  | none => false
  | some n => n != 0

/-- The "Prediction" dataset's data at `src/app.js:225`:
`[...Array(splitIndex - 1).fill(null), data[splitIndex - 1], ...data.slice(splitIndex)]`.
`data[splitIndex - 1]` is modelled by `data[n-1]?`, which is `none` exactly
when the JS index access yields `undefined`. -/
def predictionData {α : Type} (data : List α) (n : Nat) : List (Option α) :=
  List.replicate (n - 1) none ++ [data[n - 1]?] ++ (data.drop n).map some

/-- The dataset list built by `drawChart` (`src/app.js:210-241`). -/
def buildDatasets {α : Type} (data : List α) (splitIndex : Option Nat) :
    List (DatasetSpec α) :=
  if splitTruthy splitIndex then
    let n := splitIndex.getD 0
    [ { label := "Historical", data := (data.take n).map some, borderDash := none },
      { label := "Prediction", data := predictionData data n,
        borderDash := some [5, 5] } ]
  else
    [ { label := "Price", data := data.map some, borderDash := none } ]

/-- `drawChart(labels, data, title, splitIndex = null)` (`src/app.js:203-268`),
restricted to the chart value it constructs; the disposal of the previous
chart handle is modelled separately by `drawChartHandle`. -/
def drawChart {α : Type} (labels : List String) (data : List α) (title : String)
    (splitIndex : Option Nat) : ChartData α :=
  { labels := labels, datasets := buildDatasets data splitIndex, title := title }

/-- Ownership state of chart handles: ids of chart objects constructed and
not yet destroyed, the id held in the module variable `currentChart`
(`src/app.js:3`), and the id the next `new Chart` call will allocate. -/
structure ChartHandles where
  live : List Nat
  currentChart : Option Nat
  nextId : Nat
  deriving Repr, DecidableEq

/-- Handle discipline of `drawChart` (`src/app.js:206-208` and `243`):
destroy `currentChart` when present, then construct the new chart and store
its handle in `currentChart`. -/
def drawChartHandle (s : ChartHandles) : ChartHandles :=
  let s1 := match s.currentChart with
    | some c => { s with live := s.live.erase c }
    | none => s
  { live := s1.live ++ [s1.nextId], currentChart := some s1.nextId,
    nextId := s1.nextId + 1 }

/-- Invariant the code maintains on chart handles: `currentChart` owns the
only live handle (only `drawChart` constructs charts and only it destroys
them). -/
def handleInv (s : ChartHandles) : Prop :=
  match s.currentChart with
  | some c => s.live = [c]
  | none => s.live = []

/-- Model of `JSON.stringify` on an array of escape-free strings, as used at
`src/app.js:37` and `103`. -/
def jsonStringifyStringArray (l : List String) : String :=
  "[" ++ String.intercalate "," (l.map (fun s => "\"" ++ s ++ "\"")) ++ "]"

/-- A JavaScript value as produced by `JSON.parse`: a string, a number, a
boolean, `null`, an object, or an array. Numeric and object payloads are
irrelevant to the rehydration path and left abstract. -/
inductive JsValue where
  | str (s : String)
  | num
  | boolean (b : Bool)
  | null
  | obj
  | arr (elems : List JsValue)

/-- Outcome of the `JSON.parse(saved)` builtin call at `src/app.js:11`:
the parsed value, or a thrown SyntaxError on invalid JSON. `JSON.parse` is
a platform builtin, so — like the fetch calls — its outcome on the given
text is an input of the model. -/
inductive ParseOutcome where
  | ok (v : JsValue)
  | syntaxError

/-- The `DOMContentLoaded` rehydration (`src/app.js:8-14`): a falsy
persisted entry (`null`, modelled `none`, or the empty string) leaves
`stocks` as `[]`. Otherwise `JSON.parse` runs with no `try`/`catch`, so a
SyntaxError propagates out of the handler; on a parsed value,
`stocks.forEach` at line 12 runs — which throws a TypeError unless the
value is an array, the only `JSON.parse` result with a `forEach` method —
and on an array the load completes with `stocks` set to its elements,
whatever they are. -/
def loadStocks (saved : Option String) (parsed : ParseOutcome) :
    Except String (List JsValue) :=
  match saved with
  | none => .ok []
  | some s =>
    if s = "" then .ok []
    else
      match parsed with
      | .syntaxError => .error "SyntaxError: JSON.parse"
      | .ok v =>
        match v with
        | .arr elems => .ok elems
        | _ => .error "TypeError: stocks.forEach is not a function"

/-- Module-level mutable state of `src/app.js` (lines 2-5) together with the
persisted `localStorage` entry under the key `stocks` and the set of DOM
card ids, all of which the verified operations read and write. -/
structure AppState (α : Type) where
  stocks : List String
  storage : Option String
  cards : List String
  currentSymbol : Option String
  currentPeriod : String
  chart : Option (ChartData α)
  deriving Repr, DecidableEq

/-- State of the prediction control (`disabled` flag and label). -/
structure ButtonState where
  disabled : Bool
  textContent : String
  deriving Repr, DecidableEq

/-- Observable effects of one operation: HTTP requests issued, blocking
alerts shown, and console log lines. -/
structure Effects where
  requests : List String
  alerts : List String
  logs : List String
  deriving Repr, DecidableEq

/-- Empty effect log. -/
def noEffects : Effects := { requests := [], alerts := [], logs := [] }

/-- Model of the JS whitespace test used by `String.prototype.trim` on the
characters that can occur around a ticker entry. -/
def isJsWhitespace (c : Char) : Bool :=
  c = ' ' || c = '\t' || c = '\n' || c = '\r'

/-- Model of the JS builtin `trim()` (`src/app.js:24`): drop leading and
trailing whitespace. -/
def jsTrim (s : String) : String :=
  String.mk (((s.data.dropWhile isJsWhitespace).reverse.dropWhile
    isJsWhitespace).reverse)

/-- Model of the JS builtin `toUpperCase()` (`src/app.js:24`) on the ASCII
ticker alphabet: uppercase each character. -/
def jsToUpper (s : String) : String :=
  String.mk (s.data.map Char.toUpper)

/-- Result of `addStock` (`src/app.js:22-41`): the updated state, the alert
shown if any, the quote fetch issued if any, and whether the input box was
cleared. -/
structure AddResult (α : Type) where
  state : AppState α
  alert : Option String
  fetchIssued : Option String
  inputCleared : Bool

/-- Operation `addStock` (`src/app.js:22-41`): normalise the input with
`trim().toUpperCase()`, reject an empty or duplicate symbol with an alert
and no state change, otherwise append, persist, and fetch the quote. -/
def addStock {α : Type} (inputValue : String) (s : AppState α) : AddResult α :=
  let symbol := jsToUpper (jsTrim inputValue)
  if symbol = "" then
    { state := s, alert := some "Please enter a stock symbol",
      fetchIssued := none, inputCleared := false }
  else if s.stocks.contains symbol then
    { state := s, alert := some "Stock already added",
      fetchIssued := none, inputCleared := false }
  else
    let stocks1 := s.stocks ++ [symbol]
    { state := { s with stocks := stocks1,
                        storage := some (jsonStringifyStringArray stocks1) },
      alert := none, fetchIssued := some symbol, inputCleared := true }

/-- Operation `removeStock` (`src/app.js:101-113`): filter the symbol out of
`stocks`, persist, remove the symbol's card, and hide the chart section when
the removed symbol is the charted one. Returns the new state and whether the
chart section was hidden. -/
def removeStock {α : Type} (symbol : String) (s : AppState α) :
    AppState α × Bool :=
  let stocks1 := s.stocks.filter (fun x => x != symbol)
  ({ s with stocks := stocks1,
            storage := some (jsonStringifyStringArray stocks1),
            cards := s.cards.filter (fun x => x != symbol) },
   s.currentSymbol == some symbol)

/-- Outcome of the awaited quote fetch inside `fetchStockData`
(`src/app.js:59-62`): an ok response with quote data `q`, a non-ok response
carrying an error body, or a thrown transport error. -/
inductive QuoteOutcome (α : Type)
  | ok (q : α)
  | httpError (errMsg : String)
  | transportFail
  deriving Repr, DecidableEq

/-- Display state of a symbol's card. -/
inductive CardState (α : Type)
  | loading
  | displayed (q : α)
  | errorShown (msg : String)
  deriving Repr, DecidableEq

/-- Operation `fetchStockData` (`src/app.js:43-72`), after the card exists
in loading state: the resulting card display and the delay in milliseconds
of the `setTimeout(() => removeStock(symbol), 3000)` scheduled on failure
(`none` when no removal is scheduled). -/
def fetchStockData {α : Type} (outcome : QuoteOutcome α) :
    CardState α × Option Nat :=
  match outcome with
  | .ok q => (.displayed q, none)
  | .httpError e => (.errorShown ("Error: " ++ e), some 3000)
  | .transportFail => (.errorShown "Failed to fetch data", some 3000)

/-- Outcome of the awaited history fetch in `fetchHistory`
(`src/app.js:146-149`): an ok response with the series, a non-ok response
(the `response.ok` branch is simply not taken), or a thrown transport
error (the `catch` logs it). -/
inductive HistOutcome (α : Type)
  | ok (dates : List String) (prices : List α)
  | httpError
  | transportFail
  deriving Repr, DecidableEq

/-- Operation `fetchHistory` (`src/app.js:144-155`): on ok, draw the chart;
on a non-ok response, do nothing; on a thrown error, log to the console.
Returns the chart slot after the call and the effects. -/
def fetchHistory {α : Type} (symbol period : String)
    (prevChart : Option (ChartData α)) (outcome : HistOutcome α) :
    Option (ChartData α) × Effects :=
  let req := "GET /history/" ++ symbol ++ "?period=" ++ period
  match outcome with
  | .ok dates prices =>
    (some (drawChart dates prices (symbol ++ " Price History") none),
     { requests := [req], alerts := [], logs := [] })
  | .httpError =>
    (prevChart, { requests := [req], alerts := [], logs := [] })
  | .transportFail =>
    (prevChart,
     { requests := [req], alerts := [], logs := ["Error fetching history:"] })

/-- Truthiness of `currentSymbol` as tested by `!currentSymbol`
(`src/app.js:131` and `158`): `null` (modelled `none`) and the empty string
are falsy. -/
def symbolTruthy : Option String → Bool
  | none => false
  | some s => !s.isEmpty

/-- Operation `showHistory(period)` (`src/app.js:130-142`): return
immediately when `currentSymbol` is falsy; otherwise set `currentPeriod`
and run `fetchHistory`. The active-button shuffle on the period controls is
not modelled. -/
def showHistory {α : Type} (period : String) (s : AppState α)
    (outcome : HistOutcome α) : AppState α × Effects :=
  if symbolTruthy s.currentSymbol then
    let sym := s.currentSymbol.getD ""
    let r := fetchHistory sym period s.chart outcome
    ({ s with currentPeriod := period, chart := r.1 }, r.2)
  else
    (s, noEffects)

/-- Composed chart series built inside `showPrediction`
(`src/app.js:174-181`): concatenated dates and prices, and the split index
passed on to `drawChart`. -/
structure ComposedSeries (α : Type) where
  allDates : List String
  allPrices : List α
  splitIndex : Nat
  deriving Repr, DecidableEq

/-- The deterministic composition step of `showPrediction`
(`src/app.js:174-181`): `allDates = histDates ++ predDates`,
`allPrices = histPrices ++ predPrices`, `splitIndex = histDates.length`. -/
def composePrediction {α : Type} (histDates : List String)
    (histPrices : List α) (predDates : List String) (predPrices : List α) :
    ComposedSeries α :=
  { allDates := histDates ++ predDates,
    allPrices := histPrices ++ predPrices,
    splitIndex := histDates.length }

/-- Outcome of the awaited calls inside `showPrediction`'s `try` block
(`src/app.js:164-196`). The history response's `ok` flag is never checked
(`src/app.js:170-171`); a history reply without `dates`/`prices` arrays
makes the spread at line 174 throw, which lands in the `exn` case, as does
any other thrown error. -/
inductive PredictOutcome (α : Type)
  | ok (predDates : List String) (predPrices : List α)
       (histDates : List String) (histPrices : List α)
  | predictError (errMsg : String)
  | exn
  deriving Repr, DecidableEq

/-- Operation `showPrediction()` (`src/app.js:157-201`): the final state,
button state and effects. The `finally` block (lines 197-200) resets the
button on every path through the `try`. Alert bodies are abbreviated to an
identifying head; on the `exn` path the request log is abbreviated to the
prediction request, the one the code always issues first. -/
def showPrediction {α : Type} (s : AppState α) (btn : ButtonState)
    (outcome : PredictOutcome α) : AppState α × ButtonState × Effects :=
  if symbolTruthy s.currentSymbol then
    let sym := s.currentSymbol.getD ""
    let resetBtn : ButtonState :=
      { disabled := false, textContent := "Show Prediction" }
    let predReq := "GET /predict/" ++ sym ++ "?days=7"
    let histReq := "GET /history/" ++ sym ++ "?period=" ++ s.currentPeriod
    match outcome with
    | .ok predDates predPrices histDates histPrices =>
      let comp := composePrediction histDates histPrices predDates predPrices
      let chart := drawChart comp.allDates comp.allPrices
        (sym ++ " - History + 7-Day Prediction") (some comp.splitIndex)
      ({ s with chart := some chart }, resetBtn,
       { requests := [predReq, histReq],
         alerts := ["Prediction for " ++ sym], logs := [] })
    | .predictError e =>
      (s, resetBtn,
       { requests := [predReq], alerts := ["Error: " ++ e], logs := [] })
    | .exn =>
      (s, resetBtn,
       { requests := [predReq],
         alerts := ["Failed to get prediction. Make sure the backend is running."],
         logs := [] })
  else
    (s, btn, noEffects)

/-- Helper: uppercasing a string preserves emptiness. -/
theorem jsToUpper_eq_empty_iff (s : String) : jsToUpper s = "" ↔ s = "" := by
  unfold jsToUpper
  cases s with
  | mk data =>
    constructor
    · intro h
      have hdata : data.map Char.toUpper = [] := congrArg String.data h
      cases data with
      | nil => rfl
      | cons c cs => simp at hdata
    · intro h
      rw [h]
      rfl

/-- Claim C9: a failed history fetch (non-ok status or transport failure) is
silent toward the user and leaves the previously drawn chart unchanged: the
chart slot keeps its prior value, no alert is shown, and only the transport
failure produces a console log line. -/
theorem fetchHistory_failure_silent {α : Type} (sym period : String)
    (prev : Option (ChartData α)) :
    (fetchHistory sym period prev HistOutcome.httpError).1 = prev ∧
    (fetchHistory sym period prev HistOutcome.httpError).2.alerts = [] ∧
    (fetchHistory sym period prev HistOutcome.httpError).2.logs = [] ∧
    (fetchHistory sym period prev HistOutcome.transportFail).1 = prev ∧
    (fetchHistory sym period prev HistOutcome.transportFail).2.alerts = [] ∧
    (fetchHistory sym period prev HistOutcome.transportFail).2.logs =
      ["Error fetching history:"] :=
  ⟨rfl, rfl, rfl, rfl, rfl, rfl⟩

/-- Claim C10: when no symbol is charted (`currentSymbol` is `null`), both
`showHistory` and `showPrediction` return immediately: the state (current
period, chart, button) is unchanged and no request, alert or log is
produced. -/
theorem nullSymbol_noop {α : Type} (period : String) (s : AppState α)
    (btn : ButtonState) (ho : HistOutcome α) (po : PredictOutcome α)
    (h : s.currentSymbol = none) :
    showHistory period s ho = (s, noEffects) ∧
    showPrediction s btn po = (s, btn, noEffects) := by
  have ht : symbolTruthy s.currentSymbol = false := by rw [h]; rfl
  constructor
  · unfold showHistory
    rw [ht]
    simp
  · unfold showPrediction
    rw [ht]
    simp

/-- Witness for C10 at a concrete chartless state. -/
theorem nullSymbol_noop_witness :
    showHistory "1y" (⟨[], none, [], none, "1mo", none⟩ : AppState Int)
        HistOutcome.httpError =
      (⟨[], none, [], none, "1mo", none⟩, noEffects) ∧
    showPrediction (⟨[], none, [], none, "1mo", none⟩ : AppState Int)
        { disabled := false, textContent := "Show Prediction" }
        PredictOutcome.exn =
      (⟨[], none, [], none, "1mo", none⟩,
       { disabled := false, textContent := "Show Prediction" }, noEffects) :=
  nullSymbol_noop "1y" _ _ _ _ rfl

/-- Claim C8: `showPrediction`, once past the null-symbol guard, leaves the
triggering control re-enabled with its label restored on every completion
path: success, reported error response, and thrown exception alike. -/
theorem showPrediction_resets_button {α : Type} (s : AppState α)
    (btn : ButtonState) (o : PredictOutcome α)
    (h : symbolTruthy s.currentSymbol = true) :
    (showPrediction s btn o).2.1 =
      { disabled := false, textContent := "Show Prediction" } := by
  unfold showPrediction
  rw [h]
  cases o <;> rfl

/-- Witness for C8: a concrete charting state and a thrown exception still
end with the control enabled and relabelled. -/
theorem showPrediction_resets_button_witness :
    (showPrediction (⟨[], none, [], some "AAPL", "1mo", none⟩ : AppState Int)
        { disabled := true, textContent := "Loading prediction..." }
        PredictOutcome.exn).2.1 =
      { disabled := false, textContent := "Show Prediction" } :=
  showPrediction_resets_button _ _ _ (by decide)

/-- Claim C6: a failed quote fetch (non-ok status or transport failure)
switches the card to an error display and schedules `removeStock` after the
fixed 3000 ms delay, while a successful fetch schedules nothing; and
`removeStock` drops the symbol from the watchlist, rewrites the persisted
storage from the new list, and drops the symbol's card. -/
theorem fetchStockData_failure_self_heals {α : Type} (e : String) (q : α)
    (sym : String) (s : AppState α) :
    fetchStockData (QuoteOutcome.httpError e : QuoteOutcome α) =
      (CardState.errorShown ("Error: " ++ e), some 3000) ∧
    fetchStockData (QuoteOutcome.transportFail : QuoteOutcome α) =
      (CardState.errorShown "Failed to fetch data", some 3000) ∧
    fetchStockData (QuoteOutcome.ok q) = (CardState.displayed q, none) ∧
    sym ∉ (removeStock sym s).1.stocks ∧
    (removeStock sym s).1.storage =
      some (jsonStringifyStringArray ((removeStock sym s).1.stocks)) ∧
    sym ∉ (removeStock sym s).1.cards := by
  refine ⟨rfl, rfl, rfl, ?_, rfl, ?_⟩
  · simp [removeStock, List.mem_filter]
  · simp [removeStock, List.mem_filter]

/-- Claim C4: the chart-handle discipline of `drawChart` — destroy the
handle held in `currentChart` before constructing the new chart — preserves
the single-owner invariant, and right after a draw the only live handle is
the freshly constructed one. -/
theorem drawChartHandle_single_live (s : ChartHandles) (h : handleInv s) :
    handleInv (drawChartHandle s) ∧ (drawChartHandle s).live = [s.nextId] := by
  unfold handleInv at h
  cases hc : s.currentChart with
  | none =>
    rw [hc] at h
    constructor
    · unfold handleInv drawChartHandle
      rw [hc]
      simp [h]
    · unfold drawChartHandle
      rw [hc]
      simp [h]
  | some c =>
    rw [hc] at h
    constructor
    · unfold handleInv drawChartHandle
      rw [hc]
      simp [h]
    · unfold drawChartHandle
      rw [hc]
      simp [h]

/-- Witness for C4 at the startup state (`currentChart = null`, no live
handle). -/
theorem drawChartHandle_single_live_witness :
    handleInv (drawChartHandle { live := [], currentChart := none, nextId := 0 }) ∧
    (drawChartHandle { live := [], currentChart := none, nextId := 0 }).live = [0] :=
  drawChartHandle_single_live { live := [], currentChart := none, nextId := 0 } rfl

/-- Claim C5: `addStock` on an empty trimmed input or on a symbol already in
the watchlist shows a blocking alert, issues no fetch, and leaves the whole
state (watchlist, persisted storage, cards) unchanged; and `addStock` never
creates a duplicate watchlist entry. -/
theorem addStock_rejects_empty_and_duplicate {α : Type} (input : String)
    (s : AppState α) :
    ((jsToUpper (jsTrim input) = "" ∨
        s.stocks.contains (jsToUpper (jsTrim input)) = true) →
      (addStock input s).state = s ∧
      (addStock input s).alert.isSome = true ∧
      (addStock input s).fetchIssued = none) ∧
    (s.stocks.Nodup → (addStock input s).state.stocks.Nodup) := by
  have hiff : s.stocks.contains (jsToUpper (jsTrim input)) = true ↔
      jsToUpper (jsTrim input) ∈ s.stocks := List.elem_iff
  by_cases h1 : jsToUpper (jsTrim input) = ""
  · constructor
    · intro _
      refine ⟨?_, ?_, ?_⟩ <;> simp [addStock, h1]
    · intro hnd
      have : (addStock input s).state.stocks = s.stocks := by simp [addStock, h1]
      rw [this]
      exact hnd
  · by_cases h2 : jsToUpper (jsTrim input) ∈ s.stocks
    · constructor
      · intro _
        refine ⟨?_, ?_, ?_⟩ <;> simp [addStock, h1, h2]
      · intro hnd
        have : (addStock input s).state.stocks = s.stocks := by
          simp [addStock, h1, h2]
        rw [this]
        exact hnd
    · constructor
      · intro hor
        rcases hor with h | h
        · exact absurd h h1
        · exact absurd (hiff.mp h) h2
      · intro hnd
        have hstocks : (addStock input s).state.stocks =
            s.stocks ++ [jsToUpper (jsTrim input)] := by
          simp [addStock, h1, h2]
        rw [hstocks]
        simp [List.nodup_append, hnd, h2]

/-- Witness for C5: adding an already-present symbol (after normalisation)
changes nothing, alerts, and fetches nothing. -/
theorem addStock_rejects_witness :
    (addStock " aapl " (⟨["AAPL"], none, ["AAPL"], none, "1mo", none⟩ :
        AppState Int)).state =
      ⟨["AAPL"], none, ["AAPL"], none, "1mo", none⟩ ∧
    (addStock " aapl " (⟨["AAPL"], none, ["AAPL"], none, "1mo", none⟩ :
        AppState Int)).alert.isSome = true ∧
    (addStock " aapl " (⟨["AAPL"], none, ["AAPL"], none, "1mo", none⟩ :
        AppState Int)).fetchIssued = none :=
  (addStock_rejects_empty_and_duplicate " aapl " _).1 (Or.inr (by decide))

/-- Claim C7: for an input whose trimmed form is non-empty (and whose
normal form is not already present, so the add proceeds), `addStock`
appends exactly the uppercased trimmed form to the watchlist, persists the
new list, and fetches that symbol's quote. -/
theorem addStock_stores_normalized {α : Type} (input : String)
    (s : AppState α) (h1 : jsTrim input ≠ "")
    (h2 : s.stocks.contains (jsToUpper (jsTrim input)) = false) :
    (addStock input s).state.stocks = s.stocks ++ [jsToUpper (jsTrim input)] ∧
    (addStock input s).state.storage =
      some (jsonStringifyStringArray (s.stocks ++ [jsToUpper (jsTrim input)])) ∧
    (addStock input s).fetchIssued = some (jsToUpper (jsTrim input)) := by
  have hne : jsToUpper (jsTrim input) ≠ "" :=
    fun h => h1 ((jsToUpper_eq_empty_iff _).mp h)
  have hmem : jsToUpper (jsTrim input) ∉ s.stocks := by
    intro hm
    have hc : s.stocks.contains (jsToUpper (jsTrim input)) = true :=
      List.elem_iff.mpr hm
    rw [h2] at hc
    exact Bool.false_ne_true hc
  refine ⟨?_, ?_, ?_⟩ <;> simp [addStock, hne, hmem]

/-- Witness for C7: the spec's example — input `"aapl  "` stores `"AAPL"`. -/
theorem addStock_stores_normalized_witness :
    (addStock "aapl  " (⟨[], none, [], none, "1mo", none⟩ : AppState Int)).state.stocks =
      [] ++ ["AAPL"] ∧
    (addStock "aapl  " (⟨[], none, [], none, "1mo", none⟩ : AppState Int)).state.storage =
      some (jsonStringifyStringArray ([] ++ ["AAPL"])) ∧
    (addStock "aapl  " (⟨[], none, [], none, "1mo", none⟩ : AppState Int)).fetchIssued =
      some "AAPL" :=
  addStock_stores_normalized "aapl  " _ (by decide) (by decide)

/-- Counterexample for C3: malformed persisted content does not fail soft.
On the persisted text `"oops"`, which is not valid JSON, `JSON.parse`
throws a SyntaxError, and the rehydration handler propagates it instead of
treating the content as an empty watchlist. -/
theorem loadStocks_malformed_counterexample :
    loadStocks (some "oops") ParseOutcome.syntaxError =
      Except.error "SyntaxError: JSON.parse" := by
  rfl

/-- Claim C3 (amended): loading returns the persisted elements when the
persisted content parses as a JSON array, and the empty list when nothing
is persisted or the persisted entry is the empty string (both falsy);
malformed content does not fail soft — invalid JSON makes `JSON.parse`
throw, and valid JSON that is not an array makes the subsequent
`stocks.forEach` throw, and either error propagates out of the handler. -/
theorem loadStocks_spec :
    (∀ p, loadStocks none p = Except.ok []) ∧
    (∀ p, loadStocks (some "") p = Except.ok []) ∧
    (∀ s elems, s ≠ "" →
      loadStocks (some s) (ParseOutcome.ok (JsValue.arr elems)) =
        Except.ok elems) ∧
    (∀ s, s ≠ "" →
      loadStocks (some s) ParseOutcome.syntaxError =
        Except.error "SyntaxError: JSON.parse") ∧
    (∀ s v, s ≠ "" → (∀ elems, v ≠ JsValue.arr elems) →
      loadStocks (some s) (ParseOutcome.ok v) =
        Except.error "TypeError: stocks.forEach is not a function") := by
  refine ⟨fun p => rfl, fun p => rfl, ?_, ?_, ?_⟩
  · intro s elems hs
    simp [loadStocks, hs]
  · intro s hs
    simp [loadStocks, hs]
  · intro s v hs hv
    cases v with
    | arr elems => exact absurd rfl (hv elems)
    | str s2 => simp [loadStocks, hs]
    | num => simp [loadStocks, hs]
    | boolean b => simp [loadStocks, hs]
    | null => simp [loadStocks, hs]
    | obj => simp [loadStocks, hs]

/-- Witness for C3's amended theorem: a persisted array of strings loads
its elements, and a persisted number (`"5"` parses but has no `forEach`)
raises a TypeError. -/
theorem loadStocks_spec_witness :
    loadStocks (some "[\"AAPL\",\"MSFT\"]")
        (ParseOutcome.ok (JsValue.arr [JsValue.str "AAPL", JsValue.str "MSFT"])) =
      Except.ok [JsValue.str "AAPL", JsValue.str "MSFT"] ∧
    loadStocks (some "5") (ParseOutcome.ok JsValue.num) =
      Except.error "TypeError: stocks.forEach is not a function" :=
  ⟨loadStocks_spec.2.2.1 "[\"AAPL\",\"MSFT\"]"
      [JsValue.str "AAPL", JsValue.str "MSFT"] (by decide),
   loadStocks_spec.2.2.2.2 "5" JsValue.num (by decide)
      (fun elems h => JsValue.noConfusion h)⟩

/-- Counterexample for C2: a present `splitIndex` of `0` is falsy in the
`if (splitIndex)` test, so the chart gets a single "Price" dataset, not the
two datasets the claim requires for every present value. -/
theorem drawChart_splitIndexZero_counterexample :
    (drawChart ["a"] [(1 : Int)] "t" (some 0)).datasets.length = 1 ∧
    (drawChart ["a"] [(1 : Int)] "t" (some 0)).datasets.map DatasetSpec.label =
      ["Price"] := by
  constructor <;> rfl

/-- Claim C2 (amended): with `splitIndex` absent — or present but `0`,
which the truthiness test conflates with absent — `drawChart` builds the
single "Price" dataset over the full series; with a nonzero `splitIndex` it
builds exactly the "Historical" dataset over indices `[0, splitIndex)` and
the dashed "Prediction" dataset of `splitIndex - 1` placeholders, the
duplicated value at `splitIndex - 1`, and the values from `splitIndex`
on. -/
theorem drawChart_datasets_spec {α : Type} (labels : List String)
    (data : List α) (title : String) (n : Nat) :
    (drawChart labels data title none).datasets =
      [{ label := "Price", data := data.map some, borderDash := none }] ∧
    (drawChart labels data title (some 0)).datasets =
      [{ label := "Price", data := data.map some, borderDash := none }] ∧
    (n ≠ 0 →
      (drawChart labels data title (some n)).datasets =
        [{ label := "Historical", data := (data.take n).map some,
           borderDash := none },
         { label := "Prediction",
           data := List.replicate (n - 1) none ++ [data[n - 1]?] ++
             (data.drop n).map some,
           borderDash := some [5, 5] }]) := by
  refine ⟨rfl, rfl, ?_⟩
  intro hn
  unfold drawChart buildDatasets predictionData
  have : splitTruthy (some n) = true := by
    simp [splitTruthy, bne_iff_ne, hn]
  rw [this]
  simp

/-- Claim C1: with history series of length `n ≥ 1` and prediction series
of length `k`, `showPrediction` draws the chart of the composed series with
`allDates = histDates ++ predDates`, `allPrices = histPrices ++ predPrices`
of length `n + k` and `splitIndex = n`; the drawn chart's datasets are
"Historical" over the first `n` values and "Prediction" whose entries below
`n - 1` are the no-value placeholder and whose entry at `n - 1` is the last
history price (join continuity). -/
theorem showPrediction_composes {α : Type} (s : AppState α)
    (btn : ButtonState) (sym : String) (histDates : List String)
    (histPrices : List α) (predDates : List String) (predPrices : List α)
    (n k : Nat) (hcs : s.currentSymbol = some sym)
    (hsy : symbolTruthy (some sym) = true) (hd : histDates.length = n)
    (hp : histPrices.length = n) (he : predDates.length = k)
    (hq : predPrices.length = k) (hn : 1 ≤ n) :
    (composePrediction histDates histPrices predDates predPrices).allDates =
      histDates ++ predDates ∧
    (composePrediction histDates histPrices predDates predPrices).allPrices =
      histPrices ++ predPrices ∧
    (composePrediction histDates histPrices predDates
      predPrices).allDates.length = n + k ∧
    (composePrediction histDates histPrices predDates
      predPrices).allPrices.length = n + k ∧
    (composePrediction histDates histPrices predDates
      predPrices).splitIndex = n ∧
    (showPrediction s btn
        (PredictOutcome.ok predDates predPrices histDates histPrices)).1.chart =
      some (drawChart
        (composePrediction histDates histPrices predDates predPrices).allDates
        (composePrediction histDates histPrices predDates predPrices).allPrices
        (sym ++ " - History + 7-Day Prediction")
        (some (composePrediction histDates histPrices predDates
          predPrices).splitIndex)) ∧
    (drawChart
        (composePrediction histDates histPrices predDates predPrices).allDates
        (composePrediction histDates histPrices predDates predPrices).allPrices
        (sym ++ " - History + 7-Day Prediction")
        (some (composePrediction histDates histPrices predDates
          predPrices).splitIndex)).datasets =
      [{ label := "Historical",
         data := ((histPrices ++ predPrices).take n).map some,
         borderDash := none },
       { label := "Prediction",
         data := predictionData (histPrices ++ predPrices) n,
         borderDash := some [5, 5] }] ∧
    (∀ i, i < n - 1 →
      (predictionData (histPrices ++ predPrices) n)[i]? = some none) ∧
    (predictionData (histPrices ++ predPrices) n)[n - 1]? =
      some histPrices.getLast? ∧
    histPrices.getLast?.isSome = true := by
  have hlenp : histPrices.length = n := hp
  refine ⟨rfl, rfl, ?_, ?_, hd, ?_, ?_, ?_, ?_, ?_⟩
  · simp [composePrediction, hd, he]
  · simp [composePrediction, hp, hq]
  · simp [showPrediction, hcs, hsy, composePrediction]
  · have hsplitn : splitTruthy (some n) = true := by
      simp only [splitTruthy, bne_iff_ne]
      omega
    simp [drawChart, buildDatasets, composePrediction, hd, hsplitn]
  · intro i hi
    unfold predictionData
    have hb1 : i < ((List.replicate (n - 1) (none : Option α)) ++
        [(histPrices ++ predPrices)[n - 1]?]).length := by
      simp
      omega
    have hb2 : i < (List.replicate (n - 1) (none : Option α)).length := by
      simp
      omega
    rw [List.getElem?_append_left hb1, List.getElem?_append_left hb2,
      List.getElem?_replicate_of_lt hi]
  · unfold predictionData
    have hb1 : n - 1 < ((List.replicate (n - 1) (none : Option α)) ++
        [(histPrices ++ predPrices)[n - 1]?]).length := by
      simp
    rw [List.getElem?_append_left hb1]
    have hcat := List.getElem?_concat_length
      (List.replicate (n - 1) (none : Option α))
      ((histPrices ++ predPrices)[n - 1]?)
    rw [List.length_replicate] at hcat
    rw [hcat]
    have hidx : (histPrices ++ predPrices)[n - 1]? = histPrices[n - 1]? :=
      List.getElem?_append_left (by omega)
    rw [hidx, List.getLast?_eq_getElem?, hlenp]
  · rw [List.getLast?_eq_getElem?]
    have hlt : histPrices.length - 1 < histPrices.length := by omega
    rw [List.getElem?_eq_getElem hlt]
    rfl

/-- Witness for C1 on a two-point history and one-point prediction. -/
theorem showPrediction_composes_witness :
    (composePrediction ["d1", "d2"] [(10 : Int), 20] ["e1"] [30]).allDates =
      ["d1", "d2"] ++ ["e1"] ∧
    (composePrediction ["d1", "d2"] [(10 : Int), 20] ["e1"] [30]).allPrices =
      [(10 : Int), 20] ++ [30] ∧
    (composePrediction ["d1", "d2"] [(10 : Int), 20] ["e1"]
      [30]).allDates.length = 2 + 1 ∧
    (composePrediction ["d1", "d2"] [(10 : Int), 20] ["e1"]
      [30]).allPrices.length = 2 + 1 ∧
    (composePrediction ["d1", "d2"] [(10 : Int), 20] ["e1"]
      [30]).splitIndex = 2 ∧
    (showPrediction
        (⟨[], none, [], some "AAPL", "1mo", none⟩ : AppState Int)
        { disabled := false, textContent := "Show Prediction" }
        (PredictOutcome.ok ["e1"] [30] ["d1", "d2"] [10, 20])).1.chart =
      some (drawChart
        (composePrediction ["d1", "d2"] [(10 : Int), 20] ["e1"] [30]).allDates
        (composePrediction ["d1", "d2"] [(10 : Int), 20] ["e1"] [30]).allPrices
        ("AAPL" ++ " - History + 7-Day Prediction")
        (some (composePrediction ["d1", "d2"] [(10 : Int), 20] ["e1"]
          [30]).splitIndex)) ∧
    (predictionData ([(10 : Int), 20] ++ [30]) 2)[2 - 1]? =
      some [(10 : Int), 20].getLast? ∧
    [(10 : Int), 20].getLast?.isSome = true := by
  have h := showPrediction_composes
    (⟨[], none, [], some "AAPL", "1mo", none⟩ : AppState Int)
    { disabled := false, textContent := "Show Prediction" } "AAPL"
    ["d1", "d2"] [(10 : Int), 20] ["e1"] [30] 2 1 rfl (by decide) rfl rfl rfl
    rfl (by decide)
  exact ⟨h.1, h.2.1, h.2.2.1, h.2.2.2.1, h.2.2.2.2.1, h.2.2.2.2.2.1,
    h.2.2.2.2.2.2.2.2.1, h.2.2.2.2.2.2.2.2.2⟩

/-- Witness for C2's amended theorem at a concrete nonzero split. -/
theorem drawChart_datasets_spec_witness :
    (drawChart ["a", "b", "c"] [(1 : Int), 2, 3] "t" (some 2)).datasets =
      [{ label := "Historical", data := ([(1 : Int), 2, 3].take 2).map some,
         borderDash := none },
       { label := "Prediction",
         data := List.replicate (2 - 1) none ++ [[(1 : Int), 2, 3][2 - 1]?] ++
           ([(1 : Int), 2, 3].drop 2).map some,
         borderDash := some [5, 5] }] :=
  (drawChart_datasets_spec ["a", "b", "c"] [(1 : Int), 2, 3] "t" 2).2.2 (by decide)

end StockDashboard
